import Mathlib

/-!
Verification of the `autoweb` automation scheduler and its safe idle detector.

This file gives a shallow embedding, in Lean 4, of the parts of
`src/autoweb/scheduler.py` and `src/autoweb/idle_detector_safe.py` that the
frozen claims are about, and proves (or refutes) each claim against the
embedding.  Python wall-clock timestamps and duration configuration values
are modelled as integers (`ℤ`) — every use in the embedded code is an order
comparison, a difference, or a copy, so integer-valued time loses nothing —
except the safe-click pre-delay, which is kept rational (`ℚ`) because the
code branches on its fractional part.  Python ints are `ℤ` or `ℕ`, and
fallible external calls (window manager, input simulator) are
`Except String`-valued oracles supplied by an environment record, and the
background threads as explicit step functions over traces of samples.
-/

namespace Autoweb

/-- Python's substring test `p in s` for strings. -/
def strContains (s p : String) : Bool :=
  (List.range (s.length + 1)).any (fun i => p.isPrefixOf (s.drop i))

/-- A top-level window as reported by the window manager (`WindowInfo`):
an OS handle and a title. -/
structure Window where
  hwnd : ℕ
  title : String
  deriving DecidableEq

/-! ## Round-robin app selection (`AutomationScheduler._get_next_app_round_robin`)

`scheduler.py` lines 342-373.  The Python loop advances `_app_cycle_index`
once per attempt (modulo the window-list length), and returns the first
window whose handle differs from the current foreground handle and which is
not minimized; after `len(self._known_windows)` failed attempts it returns
`None`.  `rrFind` returns both the final value of `_app_cycle_index` and the
found window (if any); the fuel argument is the remaining attempt count. -/

def rrFind (ws : List Window) (minimized : ℕ → Bool) (fgh : ℕ) :
    ℕ → ℕ → ℕ × Option Window
  | idx, 0 => (idx, none)
  | idx, fuel + 1 =>
    -- `(idx + 1) % ws.length` is the single update of `_app_cycle_index`
    -- performed at the top of this loop iteration
    match ws[(idx + 1) % ws.length]? with
    | none => ((idx + 1) % ws.length, none)
    | some w =>
      if w.hwnd ≠ fgh ∧ minimized w.hwnd = false then ((idx + 1) % ws.length, some w)
      else rrFind ws minimized fgh ((idx + 1) % ws.length) fuel

/-- Embeds `_get_next_app_round_robin` against a static visible-window list `ws`
(the claim's setting: `_refresh_window_list` re-reads the same list, so it is
modelled as having no observable effect).  `fgh` is the current foreground
handle (`current.hwnd if current else 0`), `idx` the stored
`_app_cycle_index`.  Returns the new `_app_cycle_index` and the selected
window. -/
def getNextAppRoundRobin (ws : List Window) (minimized : ℕ → Bool)
    (fgh : ℕ) (idx : ℕ) : ℕ × Option Window :=
  if ws.isEmpty then (idx, none)
  else rrFind ws minimized fgh idx ws.length

/-- Round-robin cursor state for consecutive app-switch selections:
the stored `_app_cycle_index` and the current foreground handle. -/
structure RRState where
  idx : ℕ
  fgh : ℕ

/-- Runs `n` consecutive round-robin selections, under the claim's hypotheses that
every switch succeeds and the foreground window then tracks the switched-to
window.  Produces the list of selected windows.  A `none` selection performs
no switch, so iteration stops (it would repeat identically). -/
def rrRun (ws : List Window) (minimized : ℕ → Bool) :
    ℕ → RRState → List Window
  | 0, _ => []
  | n + 1, s =>
    match getNextAppRoundRobin ws minimized s.fgh s.idx with
    | (_, none) => []
    | (idx', some w) => w :: rrRun ws minimized n ⟨idx', w.hwnd⟩

/-! ### Facts about the round-robin selection -/

/-- The window at cyclic position `i` of the list `ws`. -/
def wAt (ws : List Window) (i : ℕ) : Window :=
  (ws[i % ws.length]?).getD ⟨0, ""⟩

theorem getElem?_wAt (ws : List Window) (i : ℕ) (h : i < ws.length) :
    ws[i]? = some (wAt ws i) := by
  simp [wAt, Nat.mod_eq_of_lt h, List.getElem?_eq_getElem h]

theorem wAt_eq_get (ws : List Window) (i : ℕ) (h : 0 < ws.length) :
    wAt ws i = ws.get ⟨i % ws.length, Nat.mod_lt _ h⟩ := by
  simp [wAt, List.getElem?_eq_getElem (Nat.mod_lt i h), List.get_eq_getElem]

theorem wAt_mod (ws : List Window) (i : ℕ) :
    wAt ws (i % ws.length) = wAt ws i := by
  simp [wAt, Nat.mod_mod_of_dvd i dvd_rfl]

theorem wAt_mod_add (ws : List Window) (a b : ℕ) :
    wAt ws (a % ws.length + b) = wAt ws (a + b) := by
  simp [wAt, Nat.mod_add_mod]

theorem wAt_mem (ws : List Window) (i : ℕ) (h : 0 < ws.length) :
    wAt ws i ∈ ws := by
  rw [wAt_eq_get ws i h]
  exact List.get_mem _ _ _

/-- Distinct handles make cyclic positions with equal handles equal. -/
theorem wAt_hwnd_inj (ws : List Window) (hnd : (ws.map Window.hwnd).Nodup)
    (h : 0 < ws.length) {i j : ℕ}
    (hij : (wAt ws i).hwnd = (wAt ws j).hwnd) : i % ws.length = j % ws.length := by
  have hi : i % ws.length < ws.length := Nat.mod_lt i h
  have hj : j % ws.length < ws.length := Nat.mod_lt j h
  rw [wAt_eq_get ws i h, wAt_eq_get ws j h] at hij
  have hinj := List.nodup_iff_injective_get.mp hnd
  have hi2 : i % ws.length < (ws.map Window.hwnd).length := by simpa using hi
  have hj2 : j % ws.length < (ws.map Window.hwnd).length := by simpa using hj
  have hmap : (ws.map Window.hwnd).get ⟨i % ws.length, hi2⟩ =
      (ws.map Window.hwnd).get ⟨j % ws.length, hj2⟩ := by
    simp only [List.get_eq_getElem, List.getElem_map]
    simpa [List.get_eq_getElem] using hij
  exact congrArg Fin.val (hinj hmap)

/-- Successor of a cyclic position is a different cyclic position when the
list has at least two elements. -/
theorem succ_mod_ne (L : ℕ) (hL : 2 ≤ L) (q : ℕ) (hq : q < L) :
    (q + 1) % L ≠ q := by
  rcases Nat.lt_or_ge (q + 1) L with h | h
  · rw [Nat.mod_eq_of_lt h]
    omega
  · have hqL : q + 1 = L := by omega
    rw [hqL, Nat.mod_self]
    omega

/-- Unfolding `rrFind` one step when the candidate is accepted. -/
theorem rrFind_step_found (ws : List Window) (minimized : ℕ → Bool)
    (fgh idx fuel : ℕ) (w : Window)
    (hg : ws[(idx + 1) % ws.length]? = some w)
    (hc : w.hwnd ≠ fgh ∧ minimized w.hwnd = false) :
    rrFind ws minimized fgh idx (fuel + 1) = ((idx + 1) % ws.length, some w) := by
  rw [rrFind, hg]
  exact if_pos hc

/-- Unfolding `rrFind` one step when the candidate is skipped. -/
theorem rrFind_step_skip (ws : List Window) (minimized : ℕ → Bool)
    (fgh idx fuel : ℕ) (w : Window)
    (hg : ws[(idx + 1) % ws.length]? = some w)
    (hc : ¬ (w.hwnd ≠ fgh ∧ minimized w.hwnd = false)) :
    rrFind ws minimized fgh idx (fuel + 1) =
      rrFind ws minimized fgh ((idx + 1) % ws.length) fuel := by
  rw [rrFind, hg]
  exact if_neg hc

/-- From the canonical state (cursor `q`, foreground = the window at `q`),
one selection returns exactly the next cyclic position. -/
theorem rrFind_canonical (ws : List Window) (minimized : ℕ → Bool)
    (hnd : (ws.map Window.hwnd).Nodup)
    (hmin : ∀ w ∈ ws, minimized w.hwnd = false)
    (hL : 2 ≤ ws.length) (q : ℕ) (hq : q < ws.length) (fuel : ℕ) :
    rrFind ws minimized (wAt ws q).hwnd q (fuel + 1) =
      ((q + 1) % ws.length, some (wAt ws ((q + 1) % ws.length))) := by
  have h0 : 0 < ws.length := by omega
  have hlt : (q + 1) % ws.length < ws.length := Nat.mod_lt _ h0
  have hg := getElem?_wAt ws ((q + 1) % ws.length) hlt
  have hne : (wAt ws ((q + 1) % ws.length)).hwnd ≠ (wAt ws q).hwnd := by
    intro hcontra
    have h := wAt_hwnd_inj ws hnd h0 hcontra
    rw [Nat.mod_mod_of_dvd _ dvd_rfl, Nat.mod_eq_of_lt hq] at h
    exact succ_mod_ne ws.length hL q hq h
  exact rrFind_step_found ws minimized _ q fuel _ hg
    ⟨hne, hmin _ (wAt_mem ws _ h0)⟩

/-- The first selection from an arbitrary cursor and arbitrary foreground
handle succeeds and lands on a cyclic position whose window is not the
foreground. -/
theorem rrFind_first (ws : List Window) (minimized : ℕ → Bool)
    (hnd : (ws.map Window.hwnd).Nodup)
    (hmin : ∀ w ∈ ws, minimized w.hwnd = false)
    (hL : 2 ≤ ws.length) (fgh idx0 fuel : ℕ) :
    ∃ q, q < ws.length ∧ (wAt ws q).hwnd ≠ fgh ∧
      rrFind ws minimized fgh idx0 (fuel + 2) = (q, some (wAt ws q)) := by
  have h0 : 0 < ws.length := by omega
  have hi1lt : (idx0 + 1) % ws.length < ws.length := Nat.mod_lt _ h0
  have hg1 := getElem?_wAt ws ((idx0 + 1) % ws.length) hi1lt
  by_cases hfg : (wAt ws ((idx0 + 1) % ws.length)).hwnd = fgh
  · -- the first candidate is the foreground window; the loop skips it and
    -- the second candidate necessarily differs (handles are distinct)
    have hi2lt : ((idx0 + 1) % ws.length + 1) % ws.length < ws.length :=
      Nat.mod_lt _ h0
    have hg2 := getElem?_wAt ws (((idx0 + 1) % ws.length + 1) % ws.length) hi2lt
    have hne2 : (wAt ws (((idx0 + 1) % ws.length + 1) % ws.length)).hwnd ≠ fgh := by
      intro hcontra
      have heq : (wAt ws (((idx0 + 1) % ws.length + 1) % ws.length)).hwnd =
          (wAt ws ((idx0 + 1) % ws.length)).hwnd := by rw [hcontra, hfg]
      have h := wAt_hwnd_inj ws hnd h0 heq
      rw [Nat.mod_mod_of_dvd _ dvd_rfl, Nat.mod_mod_of_dvd _ dvd_rfl] at h
      exact succ_mod_ne ws.length hL _ hi1lt h
    refine ⟨_, hi2lt, hne2, ?_⟩
    have hfuel : fuel + 2 = (fuel + 1) + 1 := rfl
    rw [hfuel, rrFind_step_skip ws minimized fgh idx0 (fuel + 1) _ hg1 (by simp [hfg])]
    exact rrFind_step_found ws minimized fgh _ fuel _ hg2
      ⟨hne2, hmin _ (wAt_mem ws _ h0)⟩
  · refine ⟨_, hi1lt, hfg, ?_⟩
    have hfuel : fuel + 2 = (fuel + 1) + 1 := rfl
    rw [hfuel]
    exact rrFind_step_found ws minimized fgh idx0 (fuel + 1) _ hg1
      ⟨hfg, hmin _ (wAt_mem ws _ h0)⟩

/-- Unfolding one successful selection in `rrRun`. -/
theorem rrRun_succ_some (ws : List Window) (minimized : ℕ → Bool) (n : ℕ)
    (s : RRState) (idx2 : ℕ) (w : Window)
    (h : getNextAppRoundRobin ws minimized s.fgh s.idx = (idx2, some w)) :
    rrRun ws minimized (n + 1) s = w :: rrRun ws minimized n ⟨idx2, w.hwnd⟩ := by
  rw [rrRun, h]

/-- From the canonical state, `n` selections walk the list cyclically. -/
theorem rrRun_canonical (ws : List Window) (minimized : ℕ → Bool)
    (hnd : (ws.map Window.hwnd).Nodup)
    (hmin : ∀ w ∈ ws, minimized w.hwnd = false)
    (hL : 2 ≤ ws.length) :
    ∀ (n q : ℕ), q < ws.length →
      rrRun ws minimized n ⟨q, (wAt ws q).hwnd⟩ =
        (List.range n).map (fun j => wAt ws (q + 1 + j)) := by
  intro n
  induction n with
  | zero => intro q _; simp [rrRun]
  | succ n ih =>
    intro q hq
    have h0 : 0 < ws.length := by omega
    have hne : ws.isEmpty = false := by
      cases ws with
      | nil => simp at h0
      | cons a l => rfl
    obtain ⟨L2, hL2⟩ : ∃ L2, ws.length = L2 + 1 := ⟨ws.length - 1, by omega⟩
    have hfind := rrFind_canonical ws minimized hnd hmin hL q hq L2
    rw [← hL2] at hfind
    have hgn : getNextAppRoundRobin ws minimized (wAt ws q).hwnd q =
        ((q + 1) % ws.length, some (wAt ws ((q + 1) % ws.length))) := by
      rw [getNextAppRoundRobin, if_neg (by simp [hne])]
      exact hfind
    have hq2 : (q + 1) % ws.length < ws.length := Nat.mod_lt _ h0
    rw [rrRun_succ_some ws minimized n ⟨q, (wAt ws q).hwnd⟩ _ _ hgn, ih _ hq2]
    rw [List.range_succ_eq_map, List.map_cons, List.map_map]
    congr 1
    · rw [wAt_mod]
    · have hfun : (fun j => wAt ws ((q + 1) % ws.length + 1 + j)) =
          ((fun j => wAt ws (q + 1 + j)) ∘ Nat.succ) := by
        funext j
        simp only [Function.comp_apply]
        rw [show (q + 1) % ws.length + 1 + j = (q + 1) % ws.length + (1 + j) by omega,
          wAt_mod_add]
        congr 1
        omega
      rw [hfun]

/-- Claim C6 (amended): given a static list of at least two eligible windows
with pairwise-distinct handles (all visible, none minimized, every switch
succeeding, the foreground tracking each successful switch), `N` consecutive
round-robin selections via `_get_next_app_round_robin` return all `N`
distinct windows before any window is returned a second time (the returned
list is a permutation of the window list).  The cursor `idx0` and the initial
foreground handle `fgh0` are arbitrary. -/
theorem c6_round_robin_visits_all (ws : List Window) (minimized : ℕ → Bool)
    (hnd : (ws.map Window.hwnd).Nodup)
    (hmin : ∀ w ∈ ws, minimized w.hwnd = false)
    (hL : 2 ≤ ws.length) (idx0 fgh0 : ℕ) :
    (rrRun ws minimized ws.length ⟨idx0, fgh0⟩).Perm ws := by
  have h0 : 0 < ws.length := by omega
  have hne : ws.isEmpty = false := by
    cases ws with
    | nil => simp at h0
    | cons a l => rfl
  obtain ⟨q, hq, hqfg, hfind⟩ :=
    rrFind_first ws minimized hnd hmin hL fgh0 idx0 (ws.length - 2)
  have hfix : ws.length - 2 + 2 = ws.length := by omega
  rw [hfix] at hfind
  have hgn : getNextAppRoundRobin ws minimized fgh0 idx0 = (q, some (wAt ws q)) := by
    rw [getNextAppRoundRobin, if_neg (by simp [hne])]
    exact hfind
  obtain ⟨n2, hn2⟩ : ∃ n2, ws.length = n2 + 1 := ⟨ws.length - 1, by omega⟩
  have hrun : rrRun ws minimized ws.length ⟨idx0, fgh0⟩ =
      wAt ws q :: rrRun ws minimized n2 ⟨q, (wAt ws q).hwnd⟩ := by
    rw [hn2]
    exact rrRun_succ_some ws minimized n2 ⟨idx0, fgh0⟩ q (wAt ws q) hgn
  rw [hrun, rrRun_canonical ws minimized hnd hmin hL n2 q hq]
  have hrot : wAt ws q :: (List.range n2).map (fun j => wAt ws (q + 1 + j)) =
      ws.rotate q := by
    apply List.ext_getElem?
    intro m
    by_cases hm : m < ws.length
    · have hrotm : (ws.rotate q)[m]? = some (wAt ws (m + q)) := by
        rw [← List.get?_eq_getElem?, List.get?_rotate hm, List.get?_eq_getElem?,
          getElem?_wAt ws _ (Nat.mod_lt _ h0), wAt_mod]
      rw [hrotm]
      cases m with
      | zero =>
        rw [List.getElem?_cons_zero]
        rw [show 0 + q = q by omega]
      | succ m2 =>
        rw [List.getElem?_cons_succ, List.getElem?_map,
          List.getElem?_range (show m2 < n2 by omega)]
        simp only [Option.map_some']
        rw [show q + 1 + m2 = m2 + 1 + q by omega]
    · have h1 : (wAt ws q ::
          (List.range n2).map (fun j => wAt ws (q + 1 + j))).length ≤ m := by
        simp only [List.length_cons, List.length_map, List.length_range]
        omega
      have h2 : (ws.rotate q).length ≤ m := by
        simp only [List.length_rotate]
        omega
      rw [List.getElem?_eq_none h1, List.getElem?_eq_none h2]
  rw [hrot]
  exact ws.rotate_perm q

/-- Concrete three-window environment used to witness claim C6. -/
def c6ws : List Window := [⟨1, "A"⟩, ⟨2, "B"⟩, ⟨3, "C"⟩]

/-- Witness for claim C6: three windows with distinct handles, none
minimized, cursor 0, foreground handle 1; three consecutive selections
return a permutation of the three windows. -/
theorem c6_round_robin_visits_all_witness :
    ((c6ws.map Window.hwnd).Nodup ∧ 2 ≤ c6ws.length) ∧
      (rrRun c6ws (fun _ => false) c6ws.length ⟨0, 1⟩).Perm c6ws :=
  ⟨⟨by decide, by decide⟩,
    c6_round_robin_visits_all c6ws (fun _ => false) (by decide)
      (by decide) (by decide) 0 1⟩

/-- Single-window environment for the C6 counterexample. -/
def c6solo : List Window := [⟨5, "Solo"⟩]

/-- Counterexample to claim C6 as stated: with `N = 1` eligible
(visible, non-minimized) window whose handle `5` is the current foreground,
the selection returns `none` (the rule always skips the foreground window),
so one consecutive selection does not return all `1` distinct windows. -/
theorem c6_counterexample :
    getNextAppRoundRobin c6solo (fun _ => false) 5 0 = (0, none) ∧
      ¬ (rrRun c6solo (fun _ => false) c6solo.length ⟨0, 5⟩).Perm c6solo := by
  decide

/-! ## Safe idle detector (`idle_detector_safe.py`)

The polling thread body `_poll_thread_func` (lines 188-251) is modelled as a
step function on the detector state, driven by one `PollSample` per loop
iteration: the sampled wall-clock time, the `GetAsyncKeyState` snapshot for
this iteration, and the value of the `_ignore_activity` flag read at the top
of the iteration.  The two Booleans returned alongside the new state record
whether the `on_activity` and `on_idle` callbacks were invoked during the
iteration (callback exceptions are swallowed by the source, so invocation is
all that matters). -/

/-- Kinds of user activity (`ActivityType`). -/
inductive ActivityType where
  | MOUSE_CLICK
  | KEYBOARD
  deriving DecidableEq

/-- Mutable state of `IdleDetector` relevant to the polling loop:
`_prev_mouse_state`, `_prev_key_states`, the `IdleState` fields, and
`_idle_notified`. -/
structure DetectorState where
  prevMouse : ℕ → Bool
  prevKeys : ℕ → Bool
  lastActivityTime : ℤ
  isUserActive : Bool
  idleDuration : ℤ
  activityType : Option ActivityType
  idleNotified : Bool

/-- One polling iteration's inputs: sampled time, sampled key state, and the
`_ignore_activity` flag value. -/
structure PollSample where
  now : ℤ
  pressed : ℕ → Bool
  ignore : Bool

def VK_LBUTTON : ℕ := 0x01
def VK_RBUTTON : ℕ := 0x02
def VK_MBUTTON : ℕ := 0x04

def mouseVKs : List ℕ := [VK_LBUTTON, VK_RBUTTON, VK_MBUTTON]

/-- The monitored key set (`KEYBOARD_KEYS`): letters, digits, F1-F12 and the
listed special keys. -/
def KEYBOARD_KEYS : List ℕ :=
  List.range' 0x41 26 ++ List.range' 0x30 10 ++ List.range' 0x70 12 ++
    [0x08, 0x09, 0x0D, 0x1B, 0x20, 0x25, 0x26, 0x27, 0x28, 0x2E, 0x2D,
     0x24, 0x23, 0x21, 0x22]

/-- The shared loop body of `_check_mouse_clicks` and `_check_keyboard`:
walk the key list; on the first new press, record it in the previous-state
map and return immediately (leaving the remaining entries un-updated);
otherwise store the current sample and continue. -/
def checkScan : List ℕ → (ℕ → Bool) → (ℕ → Bool) → Bool × (ℕ → Bool)
  | [], _, prev => (false, prev)
  | vk :: rest, pressed, prev =>
    if pressed vk = true ∧ prev vk = false then
      (true, fun k => if k = vk then true else prev k)
    else
      checkScan rest pressed (fun k => if k = vk then pressed vk else prev k)

/-- Detection half of one poll iteration (lines 200-225): run the mouse scan
then the keyboard scan, and on detection reset the activity-tracking fields
and clear `_idle_notified`.  The second component records whether
`on_activity` was invoked. -/
def pollDetect (d : DetectorState) (s : PollSample) : DetectorState × Bool :=
  let mres := checkScan mouseVKs s.pressed d.prevMouse
  let kres := checkScan KEYBOARD_KEYS s.pressed d.prevKeys
  let d1 : DetectorState := { d with prevMouse := mres.2, prevKeys := kres.2 }
  if mres.1 || kres.1 then
    ({ d1 with
        lastActivityTime := s.now
        isUserActive := true
        idleDuration := 0
        activityType :=
          some (if mres.1 then ActivityType.MOUSE_CLICK else ActivityType.KEYBOARD)
        idleNotified := false }, true)
  else (d1, false)

/-- Idle-accounting half of one poll iteration (lines 227-243).  The second
component records whether `on_idle` was invoked. -/
def pollIdleCheck (idleTimeout : ℤ) (now : ℤ) (d : DetectorState) :
    DetectorState × Bool :=
  if 0 < d.lastActivityTime then
    let elapsed := now - d.lastActivityTime
    let d3 : DetectorState := { d with idleDuration := elapsed }
    if idleTimeout ≤ elapsed then
      let d4 : DetectorState := { d3 with isUserActive := false }
      if d4.idleNotified = false then ({ d4 with idleNotified := true }, true)
      else (d4, false)
    else (d3, false)
  else (d, false)

/-- One full iteration of `_poll_thread_func`: when `_ignore_activity` is
set the iteration only sleeps; otherwise detection then idle accounting.
Returns (new state, `on_activity` invoked, `on_idle` invoked). -/
def pollStep (idleTimeout : ℤ) (d : DetectorState) (s : PollSample) :
    DetectorState × Bool × Bool :=
  if s.ignore then (d, false, false)
  else
    ((pollIdleCheck idleTimeout s.now (pollDetect d s).1).1,
      (pollDetect d s).2,
      (pollIdleCheck idleTimeout s.now (pollDetect d s).1).2)

/-- Detector state established by `IdleDetector.start()` (lines 259-269):
previous-state maps cleared, `last_activity_time = now`,
`is_user_active = true`, `_idle_notified = false`. -/
def detectorStartState (now : ℤ) : DetectorState :=
  { prevMouse := fun _ => false
    prevKeys := fun _ => false
    lastActivityTime := now
    isUserActive := true
    idleDuration := 0
    activityType := none
    idleNotified := false }

/-- Detector state before polling iteration `n`, along a sample stream. -/
def detStateAt (t : ℤ) (d0 : DetectorState) (samp : ℕ → PollSample) :
    ℕ → DetectorState
  | 0 => d0
  | n + 1 => (pollStep t (detStateAt t d0 samp n) (samp n)).1

/-- Whether `on_activity` is invoked during polling iteration `n`. -/
def firedActivityAt (t : ℤ) (d0 : DetectorState) (samp : ℕ → PollSample)
    (n : ℕ) : Bool :=
  (pollStep t (detStateAt t d0 samp n) (samp n)).2.1

/-- Whether `on_idle` is invoked during polling iteration `n`. -/
def firedIdleAt (t : ℤ) (d0 : DetectorState) (samp : ℕ → PollSample)
    (n : ℕ) : Bool :=
  (pollStep t (detStateAt t d0 samp n) (samp n)).2.2

/-! ### Facts about the poll step -/

theorem pollStep_ignore (t : ℤ) (d : DetectorState) (s : PollSample)
    (hig : s.ignore = true) : pollStep t d s = (d, false, false) := by
  unfold pollStep
  rw [hig]
  rfl

theorem pollStep_active (t : ℤ) (d : DetectorState) (s : PollSample)
    (hig : s.ignore = false) :
    pollStep t d s = ((pollIdleCheck t s.now (pollDetect d s).1).1,
      (pollDetect d s).2, (pollIdleCheck t s.now (pollDetect d s).1).2) := by
  unfold pollStep
  rw [hig]
  rfl

/-- When nothing is detected, the detection half leaves `_idle_notified`
untouched. -/
theorem pollDetect_snd_false (d : DetectorState) (s : PollSample)
    (h : (pollDetect d s).2 = false) :
    (pollDetect d s).1.idleNotified = d.idleNotified := by
  simp only [pollDetect] at h ⊢
  split at h <;> simp_all

/-- The `on_activity` flag of the detection half equals the disjunction of
the two scans. -/
theorem pollDetect_snd (d : DetectorState) (s : PollSample) :
    (pollDetect d s).2 = ((checkScan mouseVKs s.pressed d.prevMouse).1 ||
      (checkScan KEYBOARD_KEYS s.pressed d.prevKeys).1) := by
  simp only [pollDetect]
  split <;> simp_all

/-- With `_idle_notified` already set, the idle-accounting half neither
fires `on_idle` nor clears the flag. -/
theorem pollIdleCheck_notified (t now : ℤ) (d : DetectorState)
    (h : d.idleNotified = true) :
    (pollIdleCheck t now d).1.idleNotified = true ∧
      (pollIdleCheck t now d).2 = false := by
  simp only [pollIdleCheck]
  split
  · split
    · split <;> simp_all
    · simp_all
  · simp_all

/-- Firing `on_idle` sets `_idle_notified`. -/
theorem pollIdleCheck_fired (t now : ℤ) (d : DetectorState)
    (h : (pollIdleCheck t now d).2 = true) :
    (pollIdleCheck t now d).1.idleNotified = true := by
  simp only [pollIdleCheck] at h ⊢
  split at h
  · split at h
    · split at h <;> simp_all
    · simp_all
  · simp_all

/-- After an iteration that fires `on_idle`, `_idle_notified` is set. -/
theorem firedIdle_notified (t : ℤ) (d0 : DetectorState)
    (samp : ℕ → PollSample) (n : ℕ) (h : firedIdleAt t d0 samp n = true) :
    (detStateAt t d0 samp (n + 1)).idleNotified = true := by
  by_cases hig : (samp n).ignore = true
  · rw [firedIdleAt, pollStep_ignore t _ _ hig] at h
    simp at h
  · have hig2 : (samp n).ignore = false := by simpa using hig
    rw [firedIdleAt, pollStep_active t _ _ hig2] at h
    rw [detStateAt, pollStep_active t _ _ hig2]
    exact pollIdleCheck_fired t _ _ h

/-- An iteration that does not invoke `on_activity` keeps `_idle_notified`
set and cannot invoke `on_idle` while it is set. -/
theorem step_no_activity (t : ℤ) (d0 : DetectorState)
    (samp : ℕ → PollSample) (n : ℕ)
    (hnot : (detStateAt t d0 samp n).idleNotified = true)
    (hact : firedActivityAt t d0 samp n = false) :
    (detStateAt t d0 samp (n + 1)).idleNotified = true ∧
      firedIdleAt t d0 samp n = false := by
  by_cases hig : (samp n).ignore = true
  · constructor
    · rw [detStateAt, pollStep_ignore t _ _ hig]
      exact hnot
    · rw [firedIdleAt, pollStep_ignore t _ _ hig]
  · have hig2 : (samp n).ignore = false := by simpa using hig
    have hdet : (pollDetect (detStateAt t d0 samp n) (samp n)).2 = false := by
      rw [firedActivityAt, pollStep_active t _ _ hig2] at hact
      exact hact
    have hnot2 : (pollDetect (detStateAt t d0 samp n) (samp n)).1.idleNotified
        = true := by
      rw [pollDetect_snd_false _ _ hdet]
      exact hnot
    have hidle := pollIdleCheck_notified t (samp n).now _ hnot2
    constructor
    · rw [detStateAt, pollStep_active t _ _ hig2]
      exact hidle.1
    · rw [firedIdleAt, pollStep_active t _ _ hig2]
      exact hidle.2

/-- Claim C4: along any polling trace, `on_idle` fires at most once per
continuous idle stretch: between any two iterations that invoke `on_idle`
there is an iteration that invokes `on_activity` (an activity edge), because
`_idle_notified` is set when `on_idle` fires and cleared only by a new
detected edge within the polling loop. -/
theorem c4_on_idle_once_per_stretch (t : ℤ) (d0 : DetectorState)
    (samp : ℕ → PollSample) (i j : ℕ) (hij : i < j)
    (hi : firedIdleAt t d0 samp i = true) (hj : firedIdleAt t d0 samp j = true) :
    ∃ k, i < k ∧ k ≤ j ∧ firedActivityAt t d0 samp k = true := by
  by_contra hcon
  push_neg at hcon
  have hcon2 : ∀ k, i < k → k ≤ j → firedActivityAt t d0 samp k = false := by
    intro k h1 h2
    simpa using hcon k h1 h2
  have key : ∀ m, i + m ≤ j →
      (detStateAt t d0 samp (i + m + 1)).idleNotified = true := by
    intro m
    induction m with
    | zero =>
      intro _
      simpa using firedIdle_notified t d0 samp i hi
    | succ m ih =>
      intro hm
      have hprev := ih (by omega)
      have hstep := step_no_activity t d0 samp (i + m + 1) hprev
        (hcon2 _ (by omega) (by omega))
      exact hstep.1
  obtain ⟨m, hm⟩ : ∃ m, j = i + m + 1 := ⟨j - i - 1, by omega⟩
  have hnotj : (detStateAt t d0 samp j).idleNotified = true := by
    rw [hm]
    exact key m (by omega)
  have hstepj := step_no_activity t d0 samp j hnotj (hcon2 j (by omega) (by omega))
  rw [hstepj.2] at hj
  simp at hj

/-- Concrete trace used to witness claim C4: idle fires at iteration 0
(quiet since start), a left-button press edge at iteration 1, idle fires
again at iteration 2. -/
def c4samp : ℕ → PollSample := fun n =>
  if n = 0 then ⟨5, fun _ => false, false⟩
  else if n = 1 then ⟨6, fun vk => vk == 1, false⟩
  else ⟨10, fun _ => false, false⟩

/-- Witness for claim C4 at a concrete trace with `idle_timeout = 1`. -/
theorem c4_on_idle_once_per_stretch_witness :
    ((0 : ℕ) < 2 ∧ firedIdleAt 1 (detectorStartState 1) c4samp 0 = true ∧
      firedIdleAt 1 (detectorStartState 1) c4samp 2 = true) ∧
      ∃ k, 0 < k ∧ k ≤ 2 ∧ firedActivityAt 1 (detectorStartState 1) c4samp k = true :=
  ⟨⟨by decide, by decide, by decide⟩,
    c4_on_idle_once_per_stretch 1 (detectorStartState 1) c4samp 0 2
      (by decide) (by decide) (by decide)⟩

/-- A scan detects exactly when some listed input is sampled as pressed
while the stored previous-state map records it as not pressed (the key lists
contain no duplicates, so the in-scan updates of earlier keys cannot affect
the test of a later key). -/
theorem checkScan_spec (pressed : ℕ → Bool) :
    ∀ (l : List ℕ), l.Nodup → ∀ (prev : ℕ → Bool),
      ((checkScan l pressed prev).1 = true ↔
        ∃ vk ∈ l, pressed vk = true ∧ prev vk = false) := by
  intro l
  induction l with
  | nil => intro _ prev; simp [checkScan]
  | cons vk rest ih =>
    intro hnd prev
    have hvk : vk ∉ rest := (List.nodup_cons.mp hnd).1
    have hrest : rest.Nodup := (List.nodup_cons.mp hnd).2
    by_cases hc : pressed vk = true ∧ prev vk = false
    · simp only [checkScan, if_pos hc]
      constructor
      · intro _
        exact ⟨vk, List.mem_cons_self vk rest, hc⟩
      · intro _
        trivial
    · simp only [checkScan, if_neg hc]
      rw [ih hrest]
      constructor
      · rintro ⟨k, hk, hp, hpr⟩
        refine ⟨k, List.mem_cons_of_mem vk hk, hp, ?_⟩
        have hne : k ≠ vk := fun h => hvk (h ▸ hk)
        simpa [hne] using hpr
      · rintro ⟨k, hk, hp, hpr⟩
        rcases List.mem_cons.mp hk with h | h
        · exact absurd ⟨h ▸ hp, h ▸ hpr⟩ hc
        · refine ⟨k, h, hp, ?_⟩
          have hne : k ≠ vk := fun heq => hvk (heq ▸ h)
          simpa [hne] using hpr

/-- Claim C5 (amended): during an un-suppressed polling iteration,
`on_activity` is invoked exactly when some monitored mouse button or key is
sampled as pressed while the detector's STORED previous-state map records it
as not pressed; at most one invocation occurs per iteration.  (Because a
detection returns early without updating the remaining entries, the stored
map can lag the actual previous sample, so this is weaker than "transitions
from not-pressed in the previous sample": see the counterexample.)  Releases
never fire, and pointer position is never sampled at all. -/
theorem c5_on_activity_characterization (t : ℤ) (d : DetectorState)
    (s : PollSample) :
    (pollStep t d s).2.1 = true ↔
      (s.ignore = false ∧
        ((∃ vk ∈ mouseVKs, s.pressed vk = true ∧ d.prevMouse vk = false) ∨
         (∃ vk ∈ KEYBOARD_KEYS, s.pressed vk = true ∧ d.prevKeys vk = false))) := by
  by_cases hig : s.ignore = true
  · rw [pollStep_ignore t d s hig]
    simp [hig]
  · have hig2 : s.ignore = false := by simpa using hig
    rw [pollStep_active t d s hig2]
    have hm := checkScan_spec s.pressed mouseVKs (by decide) d.prevMouse
    have hk := checkScan_spec s.pressed KEYBOARD_KEYS (by decide) d.prevKeys
    simp only [pollDetect_snd, Bool.or_eq_true, hig2, true_and]
    rw [hm, hk]

/-- Pressed-state sample used by the C5 counterexample: left and right mouse
buttons both held. -/
def c5p : ℕ → Bool := fun vk => vk == 1 || vk == 2

/-- Sample stream for the C5 counterexample: the identical pressed snapshot
at every iteration (so no input ever transitions between samples after the
first). -/
def c5samp : ℕ → PollSample := fun n => ⟨(n : ℤ) + 1, c5p, false⟩

/-- Counterexample to claim C5 as stated: with the left and right buttons
newly pressed together at iteration 0 and both merely HELD at iteration 1
(the pressed snapshot is literally the same function at both iterations),
`on_activity` fires at iteration 0 and then AGAIN at iteration 1 — an
invocation for a continuously held button with no not-pressed-to-pressed
transition between the two samples — because the early return at iteration 0
left the right button's stored previous state stale. -/
theorem c5_counterexample :
    (c5samp 0).pressed = (c5samp 1).pressed ∧
      firedActivityAt 100 (detectorStartState 0) c5samp 0 = true ∧
      firedActivityAt 100 (detectorStartState 0) c5samp 1 = true :=
  ⟨rfl, by decide, by decide⟩

/-! ## Scheduler state and lifecycle (`scheduler.py`)

Timestamps and duration configuration are integers (see the file header).
`Python int(x)` applied to an integer-modelled float is the identity and is
therefore not written out. -/

/-- Embeds `AutomationPhase` (lines 49-55). -/
inductive AutomationPhase where
  | STOPPED
  | ACTIVE
  | IDLE
  | PAUSED
  | WAITING_IDLE
  deriving DecidableEq

/-- Embeds `ActionType` (lines 58-64). -/
inductive ActionType where
  | MOUSE_MOVE
  | MOUSE_CLICK
  | APP_SWITCH
  | TAB_SWITCH
  | SCROLL
  deriving DecidableEq

/-- The published `SchedulerState` dataclass (lines 67-85). -/
structure SchedulerState where
  phase : AutomationPhase := .STOPPED
  time_remaining : ℤ := 0
  cycle_count : ℤ := 0
  current_app : String := ""
  last_action : String := ""
  is_running : Bool := false
  next_action_in : ℤ := 0
  total_runtime : ℤ := 300
  runtime_remaining : ℤ := 300
  idle_wait_remaining : ℤ := 0
  is_user_active : Bool := false
  deriving DecidableEq

/-- Embeds `SchedulerConfig` (lines 88-116).  Probability weights and the click
pre-delay bound are kept rational; durations and timeouts are integers. -/
structure SchedulerConfig where
  active_duration : ℤ := 300
  idle_min : ℤ := 120
  idle_max : ℤ := 240
  action_interval_min : ℤ := 3
  action_interval_max : ℤ := 8
  app_switch_interval : ℤ := 30
  click_probability : ℚ := 1 / 10
  tab_switch_probability : ℚ := 1 / 5
  scroll_probability : ℚ := 1 / 4
  click_phase_max : ℚ := 10
  total_runtime : ℤ := 300
  user_idle_timeout : ℤ := 30
  deriving DecidableEq

/-- The mutable fields of `AutomationScheduler` that the claims touch:
whether the automation thread is alive, the idle detector's timeout and
running flag, the three `threading.Event`s, the runtime-tracking fields
(`_start_time`, `_paused_time`, `_pause_start`), the app-switch sub-timer
baseline, and the published `_state`. -/
structure Sched where
  thread_alive : Bool
  detector_timeout : ℤ
  detector_running : Bool
  stop_event : Bool
  pause_event : Bool
  resume_event : Bool
  start_time : Option ℤ
  paused_time : ℤ
  pause_start : Option ℤ
  last_app_switch_time : ℤ
  pub : SchedulerState
  deriving DecidableEq

/-- Embeds `_check_runtime_expired` (lines 305-316): elapsed wall-clock time since
start minus the ACCUMULATED pause total (completed pauses only) reaching
`config.total_runtime`. -/
def check_runtime_expired (cfg : SchedulerConfig) (now : ℤ) (s : Sched) : Bool :=
  match s.start_time with
  | none => false
  | some st => decide (cfg.total_runtime ≤ now - st - s.paused_time)

/-- Embeds `_get_runtime_remaining` (lines 318-325): `max(0, int(remaining))`. -/
def get_runtime_remaining (cfg : SchedulerConfig) (now : ℤ) (s : Sched) : ℤ :=
  match s.start_time with
  | none => cfg.total_runtime
  | some st => max 0 (cfg.total_runtime - (now - st - s.paused_time))

/-- Python's `ActivityType.name`. -/
def activityName : ActivityType → String
  | .MOUSE_CLICK => "MOUSE_CLICK"
  | .KEYBOARD => "KEYBOARD"

/-- Embeds `_on_user_activity` (lines 244-272).  Returns the new scheduler state
and the list of snapshots emitted through `on_state_change`. -/
def on_user_activity (cfg : SchedulerConfig) (now : ℤ) (at1 : ActivityType)
    (s : Sched) : Sched × List SchedulerState :=
  if s.pub.is_running = false then (s, [])
  else
    let s1 := { s with pause_event := true, resume_event := false }
    let s2 := { s1 with pause_start := some (s1.pause_start.getD now) }
    let pub2 := { s2.pub with
      phase := .WAITING_IDLE
      is_user_active := true
      idle_wait_remaining := cfg.user_idle_timeout
      last_action := "Paused - " ++ activityName at1 ++ " detected" }
    ({ s2 with pub := pub2 }, [pub2])

/-- Embeds `_on_user_idle` (lines 274-303): accumulate the completed pause into
`_paused_time`, reset the app-switch baseline, flip the events, publish. -/
def on_user_idle (_cfg : SchedulerConfig) (now : ℤ) (s : Sched) :
    Sched × List SchedulerState :=
  if s.pub.is_running = false then (s, [])
  else
    let s1 :=
      match s.pause_start with
      | some p => { s with paused_time := s.paused_time + (now - p), pause_start := none }
      | none => s
    let s2 := { s1 with last_app_switch_time := now }
    let s3 := { s2 with pause_event := false, resume_event := true }
    let pub3 := { s3.pub with
      is_user_active := false
      idle_wait_remaining := 0
      last_action := "Resumed - user idle for 2 minutes" }
    ({ s3 with pub := pub3 }, [pub3])

/-- Embeds `AutomationScheduler.start` (lines 869-919).  Returns the Boolean
result, the new scheduler state, and the emitted snapshots. -/
def start (cfg : SchedulerConfig) (now : ℤ) (s : Sched) :
    Bool × Sched × List SchedulerState :=
  if s.thread_alive then (false, s, [])
  else
    let s1 := { s with detector_timeout := cfg.user_idle_timeout }
    let s2 := { s1 with stop_event := false, pause_event := false, resume_event := true }
    let s3 := { s2 with
      start_time := some now
      paused_time := 0
      pause_start := none
      last_app_switch_time := now }
    let pub4 := { s3.pub with
      is_running := true
      cycle_count := 0
      last_action := "Starting..."
      total_runtime := cfg.total_runtime
      runtime_remaining := cfg.total_runtime
      is_user_active := false
      idle_wait_remaining := 0 }
    let s4 := { s3 with pub := pub4 }
    let s5 := { s4 with detector_running := true, thread_alive := true }
    (true, s5, [pub4])

/-- Result of entering `_idle_phase` (lines 760-778). -/
inductive IdlePhaseResult where
  | skipped
  | entered (duration : ℤ)
  deriving DecidableEq

/-- Entry behavior of `_idle_phase`: return immediately (before any state
update) when both bounds are zero, otherwise draw
`random.randint(max(1, idle_min), max(1, idle_max))`.  The random draw is
modelled relationally: `idle_phase_entry cfg r` is `some (.entered r)`
exactly when `randint` can return `r`, and `none` when it cannot. -/
def idle_phase_entry (cfg : SchedulerConfig) (r : ℤ) : Option IdlePhaseResult :=
  if cfg.idle_min = 0 ∧ cfg.idle_max = 0 then some .skipped
  else if max 1 cfg.idle_min ≤ r ∧ r ≤ max 1 cfg.idle_max then some (.entered r)
  else none

/-- A stopped scheduler state, as after construction (lines 165-206). -/
def sStopped : Sched :=
  { thread_alive := false
    detector_timeout := 30
    detector_running := false
    stop_event := false
    pause_event := false
    resume_event := false
    start_time := none
    paused_time := 0
    pause_start := none
    last_app_switch_time := 0
    pub := {} }

/-- Claim C8: `start()` returns false and mutates nothing when the thread is
already alive; otherwise it resets the pause accumulator to zero, the
runtime-start timestamp and app-switch baseline to now, pushes
`config.user_idle_timeout` into the idle detector, resets `cycle_count` to 0
and `runtime_remaining` to `config.total_runtime`, emits exactly one initial
snapshot, and returns true. -/
theorem c8_start_spec (cfg : SchedulerConfig) (now : ℤ) (s : Sched) :
    (s.thread_alive = true → start cfg now s = (false, s, [])) ∧
      (s.thread_alive = false →
        (start cfg now s).1 = true ∧
        (start cfg now s).2.1.paused_time = 0 ∧
        (start cfg now s).2.1.start_time = some now ∧
        (start cfg now s).2.1.pause_start = none ∧
        (start cfg now s).2.1.last_app_switch_time = now ∧
        (start cfg now s).2.1.detector_timeout = cfg.user_idle_timeout ∧
        (start cfg now s).2.1.detector_running = true ∧
        (start cfg now s).2.1.pub.cycle_count = 0 ∧
        (start cfg now s).2.1.pub.runtime_remaining = cfg.total_runtime ∧
        (start cfg now s).2.1.pub.is_running = true ∧
        (start cfg now s).2.2 = [(start cfg now s).2.1.pub]) := by
  constructor
  · intro h
    simp [start, h]
  · intro h
    simp [start, h]

/-- Witness for claim C8: starting the freshly constructed scheduler at
time 7 with the default configuration. -/
theorem c8_start_spec_witness :
    sStopped.thread_alive = false ∧ (start {} 7 sStopped).1 = true ∧
      (start {} 7 sStopped).2.1.pub.cycle_count = 0 := by
  have h := (c8_start_spec {} 7 sStopped).2 rfl
  exact ⟨rfl, h.1, h.2.2.2.2.2.2.2.1⟩

/-- Claim C10: when the published state has `is_running = false`, both
monitor callbacks return before mutating anything: no `SchedulerState`
field, no event, no pause accounting and no app-switch baseline changes, and
no snapshot is emitted. -/
theorem c10_callbacks_noop_when_not_running (cfg : SchedulerConfig) (now : ℤ)
    (at1 : ActivityType) (s : Sched) (h : s.pub.is_running = false) :
    on_user_activity cfg now at1 s = (s, []) ∧ on_user_idle cfg now s = (s, []) := by
  constructor <;> simp [on_user_activity, on_user_idle, h]

/-- Witness for claim C10 on the concrete stopped scheduler. -/
theorem c10_callbacks_noop_witness :
    sStopped.pub.is_running = false ∧
      on_user_activity {} 3 ActivityType.MOUSE_CLICK sStopped = (sStopped, []) ∧
      on_user_idle {} 3 sStopped = (sStopped, []) :=
  ⟨rfl,
    (c10_callbacks_noop_when_not_running {} 3 ActivityType.MOUSE_CLICK sStopped rfl).1,
    (c10_callbacks_noop_when_not_running {} 3 ActivityType.MOUSE_CLICK sStopped rfl).2⟩

/-- Configuration used for the claim C1 evaluation: 300-second runtime
budget. -/
def c1cfg : SchedulerConfig := { total_runtime := 300, user_idle_timeout := 30 }

/-- Scheduler started at time 0. -/
def c1s0 : Sched := (start c1cfg 0 sStopped).2.1

/-- An activity edge at time 10 begins a pause (`WAITING_IDLE`); the pause is
still in progress in all later queries against this state. -/
def c1s1 : Sched := (on_user_activity c1cfg 10 ActivityType.MOUSE_CLICK c1s0).1

/-- The pause ends (user idle again) at time 310. -/
def c1s2 : Sched := (on_user_idle c1cfg 310 c1s1).1

/-- Claim C1 is violated by the code (the claim states the documented
intent).  `_paused_time` is credited only at resume (`_on_user_idle`), so
while a pause is still in progress `_get_runtime_remaining` and
`_check_runtime_expired` — both of which `_wait_for_resume_or_stop` calls
every 0.5 s during `WAITING_IDLE` to publish `runtime_remaining` and to
abort on expiry — keep counting the in-progress pause against the budget.
Concretely, for a run started at t=0 with budget 300 and a pause that begins
at t=10 and is still in progress: the published remaining value decreases
during the pause (280 at t=20, 100 at t=200), the budget expires at t=310
although only 10 un-paused seconds have elapsed, and at resume the remaining
value jumps back up from 0 to 289 (so it is also not non-increasing). -/
theorem c1_runtime_counted_during_pause :
    c1s1.pub.phase = AutomationPhase.WAITING_IDLE ∧
      c1s1.pause_start = some 10 ∧ c1s1.paused_time = 0 ∧
      get_runtime_remaining c1cfg 20 c1s1 = 280 ∧
      get_runtime_remaining c1cfg 200 c1s1 = 100 ∧
      get_runtime_remaining c1cfg 310 c1s1 = 0 ∧
      check_runtime_expired c1cfg 310 c1s1 = true ∧
      ¬ (c1cfg.total_runtime ≤ 310 - 0 - (c1s1.paused_time + (310 - 10))) ∧
      c1s2.paused_time = 300 ∧
      get_runtime_remaining c1cfg 311 c1s2 = 289 := by
  decide

/-- Configuration exhibiting the claim C7 gap: `idle_min = 0 < idle_max`. -/
def c7cfg : SchedulerConfig := { idle_min := 0, idle_max := 5 }

/-- Counterexample to claim C7 as stated: with `idle_min = 0` and
`idle_max = 5` the phase is not skipped, yet the duration 0 — which lies in
the claim's interval `[idle_min, idle_max]` and equals `idle_min` — can
never be drawn, because the code draws from
`[max(1, idle_min), max(1, idle_max)] = [1, 5]`. -/
theorem c7_counterexample :
    c7cfg.idle_min = 0 ∧ c7cfg.idle_max = 5 ∧
      idle_phase_entry c7cfg 0 = none ∧
      idle_phase_entry c7cfg 1 = some (IdlePhaseResult.entered 1) := by
  decide

/-- Claim C7 (amended): the Idle phase is skipped (immediate return, before
any state update) exactly when both `idle_min` and `idle_max` are zero;
otherwise the drawn duration ranges exactly over
`[max(1, idle_min), max(1, idle_max)]` — in particular `idle_min` itself is
drawable only when `idle_min ≥ 1`. -/
theorem c7_idle_phase_amended (cfg : SchedulerConfig) (r : ℤ) :
    (idle_phase_entry cfg r = some IdlePhaseResult.skipped ↔
        cfg.idle_min = 0 ∧ cfg.idle_max = 0) ∧
      (idle_phase_entry cfg r = some (IdlePhaseResult.entered r) ↔
        ¬ (cfg.idle_min = 0 ∧ cfg.idle_max = 0) ∧
          max 1 cfg.idle_min ≤ r ∧ r ≤ max 1 cfg.idle_max) := by
  unfold idle_phase_entry
  by_cases h : cfg.idle_min = 0 ∧ cfg.idle_max = 0
  · simp [h]
  · by_cases h2 : max 1 cfg.idle_min ≤ r ∧ r ≤ max 1 cfg.idle_max
    · simp [h, h2]
    · rw [if_neg h, if_neg h2]
      refine ⟨⟨fun hcon => Option.noConfusion hcon, fun hcon => absurd hcon h⟩,
        ⟨fun hcon => Option.noConfusion hcon, fun hcon => absurd ⟨hcon.2.1, hcon.2.2⟩ h2⟩⟩

/-! ## Action execution (`_execute_action`, `_execute_app_switch`)

Each ActionExecutor call (window manager / input simulator) is an oracle in
the environment: an `Except String` value, `Except.error e` standing for a
raised exception with text `str(e) = e`.  Oracles that the code can call
several times in one invocation are indexed by a per-oracle call counter
threaded through an explicit state.  Exception propagation inside the `try`
block is Except-propagation; the `except`/`finally` pair sits in the outer
wrapper. -/

/-- Python exception text, `str(e)`. -/
abbrev PyErr := String

def codeEditorApps : List String := ["Visual Studio Code", "Code", "VS Code"]

/-- Embeds `self._tab_apps` (lines 192-194). -/
def tabApps : List String :=
  ["Chrome", "Firefox", "Edge", "Visual Studio Code", "Code", "VS Code",
   "Notepad++", "Brave"]

/-- Embeds `self._scroll_apps` (lines 188-190). -/
def scrollApps : List String :=
  ["Visual Studio Code", "Code", "VS Code", "Chrome", "Firefox", "Edge",
   "Notepad", "Word", "Excel"]

/-- Embeds `_is_chrome` (lines 416-418). -/
def isChrome (title : String) : Bool :=
  strContains title "Chrome" || strContains title "Google Chrome"

/-- Embeds `_is_vscode` (lines 420-422). -/
def isVscode (title : String) : Bool :=
  codeEditorApps.any (fun a => strContains title a)

def mouseMoveDesc (x y : ℤ) : String :=
  "Mouse moved to (" ++ toString x ++ ", " ++ toString y ++ ")"

def scrolledDesc (d app : String) : String :=
  "Scrolled " ++ d ++ " in " ++ app.take 20 ++ "..."

/-- Embeds `_switch_tab_in_app` (lines 403-414): issue Ctrl+Tab, describe. -/
def switchTabInApp (ctrlTabRes : Except PyErr Unit) (appName : String) :
    Except PyErr String :=
  match ctrlTabRes with
  | Except.error e => Except.error e
  | Except.ok _ => Except.ok ("Switched tab in " ++ appName.take 25 ++ "...")

/-- Environment of one `_execute_action` invocation. -/
structure ActionEnv where
  pauseAtEntry : Bool
  suppressed0 : Bool
  fgRes : Except PyErr (Option Window)
  moveRes : Except PyErr (ℤ × ℤ)
  ctrlTabRes : Except PyErr Unit
  scrollRes : Except PyErr String
  safeClickRes : Except PyErr (ℤ × ℤ)
  clickDelay : ℚ
  clickEv : ℕ → Bool

/-- The interruptible whole-second wait loop of the click branch
(`for _ in range(int(click_delay))`): `ev k` is the sampled value of
`stop_event or pause_event` at the `k`-th event read; returns `none` when a
read observes the events set (the click is cancelled), otherwise the
position of the next read. -/
def loopChecks (ev : ℕ → Bool) : ℕ → ℕ → Option ℕ
  | 0, k => some k
  | n + 1, k => if ev k then none else loopChecks ev n (k + 1)

/-- Event-read position of the pre-delay (lines 516-525): the whole-second
loop reads positions `0 .. ⌊dl⌋-1`; the fractional-sleep guard reads one
more position only when the fractional part is positive; the returned
position is where the final check (line 527) reads. -/
def clickAfterLoop (dl : ℚ) (ev : ℕ → Bool) : Option ℕ :=
  if 0 < dl then
    match loopChecks ev ⌊dl⌋₊ 0 with
    | none => none
    | some k => if 0 < dl - (⌊dl⌋₊ : ℚ) then some (k + 1) else some k
  else some 0

/-- The event-read position of the final check (line 527) when the wait
loop completes without cancelling. -/
def finalCheckPos (dl : ℚ) : ℕ :=
  if 0 < dl then (if 0 < dl - (⌊dl⌋₊ : ℚ) then ⌊dl⌋₊ + 1 else ⌊dl⌋₊) else 0

/-- The MOUSE_CLICK branch of `_execute_action` (lines 511-531).  The Bool
records whether `safe_click` was invoked. -/
def clickAction (dl : ℚ) (ev : ℕ → Bool) (clickRes : Except PyErr (ℤ × ℤ)) :
    Except PyErr (String × Bool) :=
  match clickAfterLoop dl ev with
  | none => Except.ok ("Click cancelled - user active", false)
  | some k =>
    if ev k then Except.ok ("Click cancelled - user active", false)
    else
      match clickRes with
      | Except.error e => Except.error e
      | Except.ok xy =>
        -- Python formats the delay with one decimal (`{click_delay:.1f}`)
        Except.ok ("Safe click at (" ++ toString xy.1 ++ ", " ++ toString xy.2 ++
          ") after " ++ toString dl ++ "s delay", true)

/-- The `try`-block body of `_execute_action` (lines 500-572). -/
def executeActionBody (env : ActionEnv) (action : ActionType) : Except PyErr String :=
  match env.fgRes with
  | Except.error e => Except.error e
  | Except.ok cw =>
    let currentApp := match cw with | some w => w.title | none => ""
    -- `is_code_editor` is computed by the source (line 504) and never used
    let _isCodeEditor := codeEditorApps.any (fun a => strContains currentApp a)
    let supportsTabs := tabApps.any (fun a => strContains currentApp a)
    match action with
    | ActionType.MOUSE_MOVE =>
      match env.moveRes with
      | Except.error e => Except.error e
      | Except.ok xy => Except.ok (mouseMoveDesc xy.1 xy.2)
    | ActionType.MOUSE_CLICK =>
      match clickAction env.clickDelay env.clickEv env.safeClickRes with
      | Except.error e => Except.error e
      | Except.ok r => Except.ok r.1
    | ActionType.TAB_SWITCH =>
      if isChrome currentApp then switchTabInApp env.ctrlTabRes "Chrome"
      else if isVscode currentApp then switchTabInApp env.ctrlTabRes "VS Code"
      else if supportsTabs then switchTabInApp env.ctrlTabRes (currentApp.take 20)
      else if scrollApps.any (fun a => strContains currentApp a) then
        match env.scrollRes with
        | Except.error e => Except.error e
        | Except.ok d => Except.ok (scrolledDesc d currentApp)
      else
        match env.moveRes with
        | Except.error e => Except.error e
        | Except.ok xy => Except.ok (mouseMoveDesc xy.1 xy.2)
    | ActionType.SCROLL =>
      if scrollApps.any (fun a => strContains currentApp a) then
        match env.scrollRes with
        | Except.error e => Except.error e
        | Except.ok d => Except.ok (scrolledDesc d currentApp)
      else
        match env.moveRes with
        | Except.error e => Except.error e
        | Except.ok xy => Except.ok (mouseMoveDesc xy.1 xy.2)
    | ActionType.APP_SWITCH => Except.ok "Unknown action"

/-- Embeds `_execute_action` (lines 483-579): early return when paused (before any
suppression), otherwise `suppress_activity()`, run the body inside
`try/except/finally`: an exception becomes "Error: <text>", and the
`finally` always calls `restore_activity()`.  The Bool component is the
detector's `_ignore_activity` flag after the call (what `is_suppressed()`
reads). -/
def executeAction (env : ActionEnv) (action : ActionType) : String × Bool :=
  if env.pauseAtEntry then ("Skipped - user active", env.suppressed0)
  else
    match executeActionBody env action with
    | Except.ok s => (s, false)
    | Except.error e => ("Error: " ++ e, false)

/-- Embeds `self._chrome_windows` as rebuilt by `_refresh_window_list`
(lines 336-337). -/
def chromeWindowsOf (ws : List Window) : List Window :=
  ws.filter (fun w =>
    strContains w.title "Chrome" || strContains w.title "Google Chrome")

/-- Environment of one `_execute_app_switch` invocation: the static visible
window list, the minimized predicate, and per-call-indexed oracles for the
foreground queries, the switch attempts and the `random.random() < 0.5`
draws. -/
structure AppSwitchEnv where
  pauseAtEntry : Bool
  suppressed0 : Bool
  ws : List Window
  minimized : ℕ → Bool
  fgRes : ℕ → Except PyErr (Option Window)
  switchRes : ℕ → Except PyErr Bool
  coin : ℕ → Bool
  appSwitchInterval : ℤ
  appIdx0 : ℕ
  chromeIdx0 : ℕ

/-- Call counters and the mutable scheduler fields `_app_cycle_index`,
`_chrome_window_index` and the published `current_app` threaded through one
`_execute_app_switch` invocation. -/
structure AppSwitchSt where
  fgN : ℕ
  swN : ℕ
  coinN : ℕ
  appIdx : ℕ
  chromeIdx : ℕ
  currentAppPub : Option String

def callForeground (env : AppSwitchEnv) (st : AppSwitchSt) :
    Except PyErr (Option Window × AppSwitchSt) :=
  match env.fgRes st.fgN with
  | Except.error e => Except.error e
  | Except.ok r => Except.ok (r, { st with fgN := st.fgN + 1 })

def callSwitchTo (env : AppSwitchEnv) (st : AppSwitchSt) :
    Except PyErr (Bool × AppSwitchSt) :=
  match env.switchRes st.swN with
  | Except.error e => Except.error e
  | Except.ok r => Except.ok (r, { st with swN := st.swN + 1 })

/-- Embeds `_get_next_app_round_robin` as invoked from `_execute_app_switch`: the
empty check, the (fallible) foreground query, then the pure selection loop
`rrFind` (`is_window_minimized` is modelled as a pure predicate). -/
def callGetNextApp (env : AppSwitchEnv) (st : AppSwitchSt) :
    Except PyErr (Option Window × AppSwitchSt) :=
  if env.ws.isEmpty then Except.ok (none, st)
  else
    match callForeground env st with
    | Except.error e => Except.error e
    | Except.ok (cur, st1) =>
      let fgh := match cur with | some w => w.hwnd | none => 0
      let r := rrFind env.ws env.minimized fgh st1.appIdx env.ws.length
      Except.ok (r.2, { st1 with appIdx := r.1 })

/-- The window loop of `_switch_chrome_window` (lines 392-399). -/
def chromeLoop (env : AppSwitchEnv) (chrome : List Window) (fgh : ℕ) :
    ℕ → AppSwitchSt → Except PyErr (Option String × AppSwitchSt)
  | 0, st => Except.ok (none, st)
  | fuel + 1, st =>
    let idx1 := (st.chromeIdx + 1) % chrome.length
    let st1 := { st with chromeIdx := idx1 }
    match chrome[idx1]? with
    | none => Except.ok (none, st1)
    | some nxt =>
      if nxt.hwnd ≠ fgh ∧ env.minimized nxt.hwnd = false then
        match callSwitchTo env st1 with
        | Except.error e => Except.error e
        | Except.ok (ok1, st2) =>
          if ok1 then
            Except.ok (some ("Switched Chrome window: " ++ nxt.title.take 30 ++ "..."),
              st2)
          else chromeLoop env chrome fgh fuel st2
      else chromeLoop env chrome fgh fuel st1

/-- Embeds `_switch_chrome_window` (lines 375-401). -/
def callSwitchChromeWindow (env : AppSwitchEnv) (st : AppSwitchSt) :
    Except PyErr (Option String × AppSwitchSt) :=
  let chrome := chromeWindowsOf env.ws
  if chrome.length < 2 then Except.ok (none, st)
  else
    match callForeground env st with
    | Except.error e => Except.error e
    | Except.ok (cur, st1) =>
      let fgh := match cur with | some w => w.hwnd | none => 0
      chromeLoop env chrome fgh chrome.length st1

/-- The bounded-attempt loop of `_execute_app_switch` (lines 600-637,
`max_attempts = 5`).  The Chrome special case consumes a coin draw only when
the current app is Chrome and several Chrome windows exist; a `None` result
from `_switch_chrome_window` falls through to the regular switch; a failed
regular switch forces a refresh (without observable effect on the static
list) and retries. -/
def appSwitchAttempts (env : AppSwitchEnv) (currentApp : String) :
    ℕ → AppSwitchSt → Except PyErr (String × AppSwitchSt)
  | 0, st => Except.ok ("Could not switch - all windows failed", st)
  | fuel + 1, st =>
    match callGetNextApp env st with
    | Except.error e => Except.error e
    | Except.ok (none, st1) => Except.ok ("No other visible windows", st1)
    | Except.ok (some nxt, st1) =>
      let chromeStep : Except PyErr (Option String × AppSwitchSt) :=
        if isChrome currentApp ∧ 1 < (chromeWindowsOf env.ws).length then
          let c := env.coin st1.coinN
          let st2 := { st1 with coinN := st1.coinN + 1 }
          if c then
            match callSwitchChromeWindow env st2 with
            | Except.error e => Except.error e
            | Except.ok (some result, st3) =>
              match callForeground env st3 with
              | Except.error e => Except.error e
              | Except.ok (w2, st4) =>
                Except.ok (some result,
                  match w2 with
                  | some w => { st4 with currentAppPub := some w.title }
                  | none => st4)
            | Except.ok (none, st3) => Except.ok (none, st3)
          else Except.ok (none, st2)
        else Except.ok (none, st1)
      match chromeStep with
      | Except.error e => Except.error e
      | Except.ok (some result, st6) => Except.ok (result, st6)
      | Except.ok (none, st6) =>
        match callSwitchTo env st6 with
        | Except.error e => Except.error e
        | Except.ok (ok1, st7) =>
          if ok1 then
            match callForeground env st7 with
            | Except.error e => Except.error e
            | Except.ok (w2, st8) =>
              let appName := match w2 with | some w => w.title | none => nxt.title
              let st9 := { st8 with currentAppPub := some appName }
              Except.ok ("🔄 APP SWITCH (" ++ toString env.appSwitchInterval ++
                "s): App " ++ toString (st9.appIdx + 1) ++ "/" ++
                toString env.ws.length ++ ": " ++ appName.take 25 ++ "...", st9)
          else appSwitchAttempts env currentApp fuel st7

/-- The `try`-block body of `_execute_app_switch` (lines 593-639). -/
def executeAppSwitchBody (env : AppSwitchEnv) : Except PyErr (String × AppSwitchSt) :=
  let st0 : AppSwitchSt :=
    { fgN := 0
      swN := 0
      coinN := 0
      appIdx := env.appIdx0
      chromeIdx := env.chromeIdx0
      currentAppPub := none }
  match callForeground env st0 with
  | Except.error e => Except.error e
  | Except.ok (cur, st1) =>
    let currentApp := match cur with | some w => w.title | none => ""
    appSwitchAttempts env currentApp 5 st1

/-- Embeds `_execute_app_switch` (lines 581-645): early return when paused (before
any suppression), otherwise suppress, run the body, convert an exception
into "Error: <text>", always restore detection in the `finally`.  The Bool
component is `is_suppressed()` after the call. -/
def executeAppSwitch (env : AppSwitchEnv) : String × Bool :=
  if env.pauseAtEntry then ("App switch skipped - user active", env.suppressed0)
  else
    match executeAppSwitchBody env with
    | Except.ok r => (r.1, false)
    | Except.error e => ("Error: " ++ e, false)

/-! ### Suppression, error conversion, click interruptibility -/

/-- Claim C2: every invocation of `_execute_action` or `_execute_app_switch`
that suppresses activity detection (i.e. that passes the entry pause check
and so reaches `suppress_activity()`) restores it on every exit path —
normal return, caught executor exception, or cancellation-induced early
return — so the detector's `is_suppressed()` is false after the call, for
every action type and every executor outcome. -/
theorem c2_suppression_restored (envA : ActionEnv) (action : ActionType)
    (envS : AppSwitchEnv) (hA : envA.pauseAtEntry = false)
    (hS : envS.pauseAtEntry = false) :
    (executeAction envA action).2 = false ∧ (executeAppSwitch envS).2 = false := by
  constructor
  · rw [executeAction, if_neg (by simp [hA])]
    cases executeActionBody envA action <;> rfl
  · rw [executeAppSwitch, if_neg (by simp [hS])]
    cases executeAppSwitchBody envS <;> rfl

/-- Environment for the C2 witness: a live Chrome foreground window whose
Ctrl+Tab call raises, exercising the caught-exception exit path. -/
def c2envA : ActionEnv :=
  { pauseAtEntry := false
    suppressed0 := false
    fgRes := Except.ok (some ⟨1, "Google Chrome - news"⟩)
    moveRes := Except.ok (100, 200)
    ctrlTabRes := Except.error "SendInput failed"
    scrollRes := Except.ok "up and down"
    safeClickRes := Except.ok (3, 4)
    clickDelay := 0
    clickEv := fun _ => false }

/-- App-switch environment for the C2 witness. -/
def c2envS : AppSwitchEnv :=
  { pauseAtEntry := false
    suppressed0 := false
    ws := [⟨1, "A"⟩, ⟨2, "B"⟩]
    minimized := fun _ => false
    fgRes := fun _ => Except.ok (some ⟨1, "A"⟩)
    switchRes := fun _ => Except.ok true
    coin := fun _ => false
    appSwitchInterval := 30
    appIdx0 := 0
    chromeIdx0 := 0 }

/-- Witness for claim C2 on concrete environments (the action call hits the
exception path, the app switch succeeds normally). -/
theorem c2_suppression_restored_witness :
    (c2envA.pauseAtEntry = false ∧ c2envS.pauseAtEntry = false) ∧
      (executeAction c2envA ActionType.TAB_SWITCH).2 = false ∧
      (executeAppSwitch c2envS).2 = false := by
  have h := c2_suppression_restored c2envA ActionType.TAB_SWITCH c2envS rfl rfl
  exact ⟨⟨rfl, rfl⟩, h.1, h.2⟩

/-- Claim C3: every exception raised by an ActionExecutor call inside the
try block of `_execute_action` or `_execute_app_switch` is caught at the
call site and converted into the failure description "Error: <text>", which
the function returns (the phase loop then publishes it as `last_action`);
the functions always return a description — no such exception propagates. -/
theorem c3_executor_errors_become_descriptions (envA : ActionEnv)
    (action : ActionType) (e : PyErr) (envS : AppSwitchEnv) (e2 : PyErr)
    (hA : envA.pauseAtEntry = false) (hS : envS.pauseAtEntry = false) :
    (executeActionBody envA action = Except.error e →
        executeAction envA action = ("Error: " ++ e, false)) ∧
      (executeAppSwitchBody envS = Except.error e2 →
        executeAppSwitch envS = ("Error: " ++ e2, false)) := by
  constructor
  · intro hbody
    rw [executeAction, if_neg (by simp [hA]), hbody]
  · intro hbody
    rw [executeAppSwitch, if_neg (by simp [hS]), hbody]

/-- Environment for the C3 witness: the foreground query itself raises. -/
def c3envA : ActionEnv :=
  { pauseAtEntry := false
    suppressed0 := false
    fgRes := Except.error "GetForegroundWindow failed"
    moveRes := Except.ok (0, 0)
    ctrlTabRes := Except.ok ()
    scrollRes := Except.ok "up"
    safeClickRes := Except.ok (0, 0)
    clickDelay := 0
    clickEv := fun _ => false }

/-- App-switch environment for the C3 witness: the switch call raises. -/
def c3envS : AppSwitchEnv :=
  { pauseAtEntry := false
    suppressed0 := false
    ws := [⟨1, "A"⟩, ⟨2, "B"⟩]
    minimized := fun _ => false
    fgRes := fun _ => Except.ok (some ⟨1, "A"⟩)
    switchRes := fun _ => Except.error "SetForegroundWindow failed"
    coin := fun _ => false
    appSwitchInterval := 30
    appIdx0 := 0
    chromeIdx0 := 0 }

/-- Witness for claim C3: both bodies raise on concrete environments and
both wrappers return the "Error: ..." description. -/
theorem c3_executor_errors_witness :
    (c3envA.pauseAtEntry = false ∧
      executeActionBody c3envA ActionType.MOUSE_MOVE =
        Except.error "GetForegroundWindow failed" ∧
      executeAppSwitchBody c3envS = Except.error "SetForegroundWindow failed") ∧
      executeAction c3envA ActionType.MOUSE_MOVE =
        ("Error: " ++ "GetForegroundWindow failed", false) ∧
      executeAppSwitch c3envS = ("Error: " ++ "SetForegroundWindow failed", false) := by
  have h := c3_executor_errors_become_descriptions c3envA ActionType.MOUSE_MOVE
    "GetForegroundWindow failed" c3envS "SetForegroundWindow failed" rfl rfl
  exact ⟨⟨rfl, rfl, rfl⟩, h.1 rfl, h.2 rfl⟩

theorem loopChecks_some (ev : ℕ → Bool) :
    ∀ (n k k2 : ℕ), loopChecks ev n k = some k2 → k2 = k + n := by
  intro n
  induction n with
  | zero =>
    intro k k2 h
    simp [loopChecks] at h
    omega
  | succ n ih =>
    intro k k2 h
    rw [loopChecks] at h
    by_cases hk : ev k = true
    · rw [if_pos hk] at h
      cases h
    · rw [if_neg hk] at h
      have := ih (k + 1) k2 h
      omega

/-- When the wait loop does not cancel, the final check reads exactly
position `finalCheckPos dl`. -/
theorem clickAfterLoop_some (dl : ℚ) (ev : ℕ → Bool) (k : ℕ)
    (h : clickAfterLoop dl ev = some k) : k = finalCheckPos dl := by
  unfold clickAfterLoop at h
  unfold finalCheckPos
  by_cases hdl : 0 < dl
  · rw [if_pos hdl] at h
    rw [if_pos hdl]
    cases hlc : loopChecks ev ⌊dl⌋₊ 0 with
    | none =>
      rw [hlc] at h
      exact Option.noConfusion h
    | some k0 =>
      rw [hlc] at h
      have h2 : (if 0 < dl - (⌊dl⌋₊ : ℚ) then some (k0 + 1) else some k0) = some k := h
      have hk0 := loopChecks_some ev ⌊dl⌋₊ 0 k0 hlc
      by_cases hfr : 0 < dl - (⌊dl⌋₊ : ℚ)
      · rw [if_pos hfr] at h2
        rw [if_pos hfr]
        injection h2 with h3
        omega
      · rw [if_neg hfr] at h2
        rw [if_neg hfr]
        injection h2 with h3
        omega
  · rw [if_neg hdl] at h
    rw [if_neg hdl]
    injection h with h2
    omega

/-- Claim C9: a safe-click action first draws a pre-delay from
`[0, click_phase_max]`; if the stop event or the pause event becomes set at
one of the sampled interruptible checks during that pre-delay (event state
is monotone over the window once set), the click is abandoned: `safe_click`
is never invoked (Bool `false`) and the action's result is the cancellation
description rather than a performed click. -/
theorem c9_click_pre_delay_interruptible (env : ActionEnv) (w : Option Window)
    (hfg : env.fgRes = Except.ok w) (hp : env.pauseAtEntry = false)
    (hmono : ∀ i j, i ≤ j → env.clickEv i = true → env.clickEv j = true)
    (hset : ∃ i, i ≤ finalCheckPos env.clickDelay ∧ env.clickEv i = true) :
    clickAction env.clickDelay env.clickEv env.safeClickRes =
        Except.ok ("Click cancelled - user active", false) ∧
      executeAction env ActionType.MOUSE_CLICK =
        ("Click cancelled - user active", false) := by
  obtain ⟨i, hi, hev⟩ := hset
  have hfinal : env.clickEv (finalCheckPos env.clickDelay) = true :=
    hmono i _ hi hev
  have hclick : clickAction env.clickDelay env.clickEv env.safeClickRes =
      Except.ok ("Click cancelled - user active", false) := by
    unfold clickAction
    cases hal : clickAfterLoop env.clickDelay env.clickEv with
    | none => rfl
    | some k =>
      have hk := clickAfterLoop_some env.clickDelay env.clickEv k hal
      have hevk : env.clickEv k = true := by
        rw [hk]
        exact hfinal
      exact if_pos hevk
  refine ⟨hclick, ?_⟩
  have hbody : executeActionBody env ActionType.MOUSE_CLICK =
      Except.ok "Click cancelled - user active" := by
    simp only [executeActionBody, hfg, hclick]
  rw [executeAction, if_neg (by simp [hp]), hbody]

/-- Environment for the C9 witness: pre-delay 2 seconds, the events become
set from the second event read on. -/
def c9env : ActionEnv :=
  { pauseAtEntry := false
    suppressed0 := false
    fgRes := Except.ok (some ⟨1, "Notepad"⟩)
    moveRes := Except.ok (0, 0)
    ctrlTabRes := Except.ok ()
    scrollRes := Except.ok "up"
    safeClickRes := Except.ok (50, 60)
    clickDelay := 2
    clickEv := fun i => decide (1 ≤ i) }

theorem c9_finalCheckPos : finalCheckPos c9env.clickDelay = 2 := by
  have h : c9env.clickDelay = 2 := rfl
  rw [h]
  norm_num [finalCheckPos, Nat.floor_ofNat]

/-- Witness for claim C9: the pause event becomes set at the second check of
a 2-second pre-delay; the click is cancelled and `safe_click` not invoked. -/
theorem c9_click_pre_delay_witness :
    (c9env.pauseAtEntry = false ∧
      (∃ i, i ≤ finalCheckPos c9env.clickDelay ∧ c9env.clickEv i = true)) ∧
      clickAction c9env.clickDelay c9env.clickEv c9env.safeClickRes =
        Except.ok ("Click cancelled - user active", false) ∧
      executeAction c9env ActionType.MOUSE_CLICK =
        ("Click cancelled - user active", false) := by
  have hset : ∃ i, i ≤ finalCheckPos c9env.clickDelay ∧ c9env.clickEv i = true :=
    ⟨1, by rw [c9_finalCheckPos]; omega, by decide⟩
  have h := c9_click_pre_delay_interruptible c9env (some ⟨1, "Notepad"⟩) rfl rfl
    (by
      intro i j hij hi
      simp only [c9env, decide_eq_true_eq] at hi ⊢
      omega)
    hset
  exact ⟨⟨rfl, hset⟩, h.1, h.2⟩

end Autoweb
